import Mathlib

/-!
Shallow embedding of the url-to-pdf repository:
- the client page (`src/app/page.tsx`): cache key derivation, IndexedDB cache
  access (`savePdfToCache` / `getPdfFromCache`), filename derivation
  (`generateFilenameFromUrl`) and the submit flow (`handleSubmit`);
- the server route (`POST /api/pdf`): zod request validation, viewport and
  paper-format selection, the external render call.

Machine integers do not occur; page dimensions, written as decimal inches in
the source (8.27 etc.), are embedded in hundredths of an inch as naturals.
IndexedDB, the WHATWG `URL` constructor and zod's `.url()` check are platform
or library collaborators; they are embedded by their documented semantics
(a keyed object store with upsert `put` and point `get`; a parser that
lowercases the hostname and rejects strings without a scheme).
-/

namespace UrlToPdf

/-- `type PageSize = 'a4' | 'letter' | 'custom'` (page.tsx). -/
inductive PageSize where
  | a4
  | letter
  | custom
deriving DecidableEq, Repr

/-- The string value each `PageSize` variant has in the TypeScript source. -/
def pageSizeStr : PageSize → String
  | .a4 => "a4"
  | .letter => "letter"
  | .custom => "custom"

/-- PDF payload bytes (a `Blob` in the source). -/
abbrev Blob := List Nat

/-- `generateCacheKey` (page.tsx): `` `${url}|${pageSize}` ``. -/
def generateCacheKey (url : String) (p : PageSize) : String :=
  url ++ "|" ++ pageSizeStr p

/-- The record written to the IndexedDB object store by `savePdfToCache`:
`{ cacheKey, url, pageSize, blob, timestamp }`. -/
structure CacheEntry where
  cacheKey : String
  url : String
  pageSize : PageSize
  blob : Blob
  timestamp : Nat
deriving DecidableEq, Repr

/-- The IndexedDB object store `pdfs` with `keyPath: 'cacheKey'`, embedded as a
list of records. -/
abbrev Store := List CacheEntry

/-- IndexedDB `store.get(cacheKey)`: point lookup by key; `none` is the absent
result (`request.result === undefined`). -/
def getEntry (store : Store) (k : String) : Option CacheEntry :=
  store.find? (fun e => e.cacheKey == k)

/-- IndexedDB `store.put(entry)` on a store with `keyPath: 'cacheKey'`: upsert —
replace the record under the same key if present, otherwise append. -/
def putEntry (store : Store) (e : CacheEntry) : Store :=
  if store.any (fun x => x.cacheKey == e.cacheKey) then
    store.map (fun x => if x.cacheKey == e.cacheKey then e else x)
  else
    store ++ [e]

/-- Number of records a store holds under one key. -/
def keyCount (store : Store) (k : String) : Nat :=
  store.countP (fun e => e.cacheKey == k)

/-! ### URL parsing (platform collaborator)

The source calls `new URL(url)`; zod's `.url()` performs the same check. The
WHATWG parser is embedded by the behaviour the repository relies on: a URL is
`scheme "://" host [path] [? or # suffix]`, the hostname is ASCII-lowercased,
and construction throws (here: `none`) when the scheme/host shape is absent.
-/

/-- `a-z` or `A-Z`. -/
def isAsciiLetter (c : Char) : Bool :=
  ('a' ≤ c && c ≤ 'z') || ('A' ≤ c && c ≤ 'Z')

/-- The two components of a parsed URL that `generateFilenameFromUrl` reads:
`urlObj.hostname` and `urlObj.pathname`. -/
structure URLParts where
  hostname : String
  pathname : String
deriving DecidableEq, Repr

/-- Split `scheme "://" rest` into `(scheme, rest)`; `none` when no `"://"`
occurs. -/
def splitScheme : List Char → Option (List Char × List Char)
  | [] => none
  | c :: rest =>
    if c = ':' then
      match rest with
      | '/' :: '/' :: r => some ([], r)
      | _ => none
    else
      (splitScheme rest).map (fun pr => (c :: pr.1, pr.2))

/-- Model of the platform `new URL(url)` constructor (throws ↦ `none`):
requires a non-empty all-letter scheme, `"://"`, and a non-empty host;
hostname is ASCII-lowercased; pathname runs from the first `/` after the host
to a `?` or `#`, and is `"/"` when the URL has no path. -/
def parseURL (url : String) : Option URLParts :=
  match splitScheme url.data with
  | none => none
  | some (scheme, rest) =>
    if scheme = [] || !scheme.all isAsciiLetter then none
    else
      let host := rest.takeWhile (fun c => c ≠ '/' && c ≠ '?' && c ≠ '#')
      let tail := rest.dropWhile (fun c => c ≠ '/' && c ≠ '?' && c ≠ '#')
      if host = [] then none
      else
        let path := tail.takeWhile (fun c => c ≠ '?' && c ≠ '#')
        some { hostname := String.mk (host.map Char.toLower)
               pathname := if path = [] then "/" else String.mk path }

/-! ### Filename derivation (`generateFilenameFromUrl`, page.tsx) -/

/-- The character class `[a-zA-Z0-9-]` of the sanitizing regex. -/
def isFilenameSafeChar (c : Char) : Bool :=
  isAsciiLetter c || ('0' ≤ c && c ≤ '9') || c = '-'

/-- JS `String.replace(pat, '')` with a plain-string pattern: removes the
first occurrence of `pat` only (used as `hostname.replace('www.', '')`). -/
def dropFirstSub (pat : List Char) : List Char → List Char
  | [] => []
  | c :: rest =>
    if pat.isPrefixOf (c :: rest) then (c :: rest).drop pat.length
    else c :: dropFirstSub pat rest

/-- JS `.replace` with the global regex `-+` and replacement `-`: each maximal
run of hyphens becomes one hyphen. -/
def collapseDashes : List Char → List Char
  | [] => []
  | c :: rest =>
    let r := collapseDashes rest
    if c = '-' ∧ r.head? = some '-' then r else c :: r

/-- `.replace(/^x|x$/g, '')` for a single character `x`: drop one leading
occurrence. -/
def dropLeadingCh (x : Char) : List Char → List Char
  | c :: rest => if c = x then rest else c :: rest
  | [] => []

/-- `.replace(/^x|x$/g, '')` for a single character `x`: drop one trailing
occurrence. -/
def dropTrailingCh (x : Char) (l : List Char) : List Char :=
  match l.reverse with
  | c :: rest => if c = x then rest.reverse else l
  | [] => l

/-- `pathname.replace(/^\/|\/$/g, '').replace(/\//g, '-')`. -/
def cleanPathChars (l : List Char) : List Char :=
  (dropTrailingCh '/' (dropLeadingCh '/' l)).map (fun c => if c = '/' then '-' else c)

/-- The sanitizing chain of `generateFilenameFromUrl`: replace every character
outside `[a-zA-Z0-9-]` by `-`, collapse hyphen runs (regex `-+`), strip a
leading and a trailing hyphen (regex `^-|-$`), then `.slice(0, 100)`. -/
def sanitizeFilename (l : List Char) : List Char :=
  (dropTrailingCh '-' (dropLeadingCh '-'
    (collapseDashes (l.map (fun c => if isFilenameSafeChar c then c else '-'))))).take 100

/-- The `filename` variable of `generateFilenameFromUrl` before sanitizing:
`hostname.replace('www.', '')`, extended with `` `-${cleanPath}` `` when the
pathname is neither empty nor `"/"`. -/
def rawFilename (parts : URLParts) : List Char :=
  if parts.pathname ≠ "" ∧ parts.pathname ≠ "/" then
    dropFirstSub "www.".data parts.hostname.data ++ ('-' :: cleanPathChars parts.pathname.data)
  else
    dropFirstSub "www.".data parts.hostname.data

/-- `generateFilenameFromUrl` (page.tsx): hostname with the first `"www."`
removed, plus the cleaned path when the path is non-trivial, sanitized; on a
`URL` construction failure, or when the sanitized result is empty (JS
`filename || 'page'`), the literal `"page"`. -/
def generateFilenameFromUrl (url : String) : String :=
  match parseURL url with
  | none => "page"
  | some parts =>
    if sanitizeFilename (rawFilename parts) = [] then "page"
    else String.mk (sanitizeFilename (rawFilename parts))

/-! ### Server route (`POST /api/pdf`, the route handler file)

`requestSchema = z.object({ url: z.string().url(),
pageSize: z.enum(['a4','letter','custom']).default('a4') }).strict()`.
The request body is embedded as the two fields the strict schema admits, each
optional (absent JSON field ↦ `none`).
-/

/-- The JSON body of a `POST /api/pdf` request, as the strict zod schema sees
it. -/
structure ServerReq where
  url : Option String
  pageSize : Option String
deriving DecidableEq, Repr

/-- `z.enum(['a4', 'letter', 'custom'])`. -/
def parsePageSize (s : String) : Option PageSize :=
  if s = "a4" then some .a4
  else if s = "letter" then some .letter
  else if s = "custom" then some .custom
  else none

/-- `requestSchema.safeParse`: `url` must be a string accepted by the URL
constructor (zod `.url()`); `pageSize` defaults to `a4` when absent and must
otherwise be one of the three enum values. -/
def parseReq (req : ServerReq) : Option (String × PageSize) :=
  match req.url with
  | none => none
  | some u =>
    if (parseURL u).isSome then
      match req.pageSize with
      | none => some (u, .a4)
      | some s => (parsePageSize s).map (fun p => (u, p))
    else none

/-- `pageSizes` (route handler): width and height, in hundredths of an inch
(the source writes inches as exact decimals: a4 `8.27 × 11.69`,
letter `8.5 × 11`, custom `8.27 × 11.69`). -/
def pageSizes : PageSize → Nat × Nat
  | .a4 => (827, 1169)
  | .letter => (850, 1100)
  | .custom => (827, 1169)

/-- `Math.round(x)` where `x` is `n` hundredths: round half away from zero on
non-negative input. -/
def roundHundredths (n : Nat) : Nat :=
  (n + 50) / 100

/-- `page.setViewport({ width: Math.round(size.width * 96), height:
Math.round(size.height * 96) })` — inches to pixels at 96 dpi. -/
def viewportPx (p : PageSize) : Nat × Nat :=
  (roundHundredths ((pageSizes p).1 * 96), roundHundredths ((pageSizes p).2 * 96))

/-- JS `pageSize.toUpperCase()` (ASCII uppercase, character by character). -/
def toUpperStr (s : String) : String :=
  String.mk (s.data.map Char.toUpper)

/-- The arguments the route hands to the headless-browser collaborator:
the viewport set before navigation and the paper `format` given to
`createPDFStream` (`pageSize.toUpperCase()`). -/
structure RenderCall where
  viewportWidth : Nat
  viewportHeight : Nat
  format : String
deriving DecidableEq, Repr

/-- Server-side environment: the `BROWSERLESS_TOKEN` variable and the outcome
of the (external) render, which either yields PDF bytes or throws. -/
structure ServerEnv where
  browserlessToken : Option String
  renderOk : Bool
  renderedPdf : Blob
deriving Repr

/-- An HTTP response of the route: status, the `error` field of a JSON error
body, and the PDF bytes of a success body (empty on error — `fetch`'s
`response.blob()` always yields a blob). -/
structure ApiResponse where
  status : Nat
  error : Option String
  body : Blob
deriving DecidableEq, Repr

/-- `Response.ok`: status in the 200–299 range. -/
def ApiResponse.ok (r : ApiResponse) : Bool :=
  200 ≤ r.status && r.status < 300

/-- The `POST` route handler: validate with `requestSchema`; reject a missing
`BROWSERLESS_TOKEN` with a 500 configuration error; otherwise connect, set the
viewport, navigate and stream the PDF (any throw in that block is caught and
answered with a 500 `"Failed to generate PDF"`). Returns the response together
with the render call made to the collaborator, when one happened. -/
def POST (env : ServerEnv) (req : ServerReq) : ApiResponse × Option RenderCall :=
  match parseReq req with
  | none =>
    -- `Invalid request: ${error.message}`; the tail is zod's issue text,
    -- abstracted here since no behaviour depends on its exact wording.
    ({ status := 400, error := some "Invalid request: invalid input", body := [] }, none)
  | some (_, p) =>
    match env.browserlessToken with
    | none =>
      ({ status := 500,
         error := some "Server configuration error: Browserless token not found",
         body := [] }, none)
    | some _ =>
      if env.renderOk then
        ({ status := 200, error := none, body := env.renderedPdf },
         some { viewportWidth := (viewportPx p).1
                viewportHeight := (viewportPx p).2
                format := toUpperStr (pageSizeStr p) })
      else
        ({ status := 500, error := some "Failed to generate PDF", body := [] }, none)

/-! ### Client cache access and the submit flow (page.tsx)

IndexedDB failures are injected through two fault flags: `readFails` covers a
failed `initializeDB` or a failed `get` request on the read path, `writeFails`
the same on the write path — in either case the source catches the rejection
inside the helper itself.
-/

/-- `getPdfFromCache` (page.tsx): open the database, `get` the key derived
from `(url, pageSize)`, and return `result?.blob || null`; any error is caught
and the function returns `null`. -/
def getPdfFromCache (readFails : Bool) (store : Store) (url : String) (p : PageSize) :
    Option Blob :=
  if readFails then none
  else (getEntry store (generateCacheKey url p)).map (fun e => e.blob)

/-- `savePdfToCache` (page.tsx): `put` the full entry under the derived key;
any error is caught and logged, leaving the store unchanged. Also reports
whether the write actually happened. -/
def savePdfToCache (writeFails : Bool) (store : Store) (url : String) (p : PageSize)
    (blob : Blob) (now : Nat) : Store × Bool :=
  if writeFails then (store, false)
  else
    (putEntry store
      { cacheKey := generateCacheKey url p
        url := url
        pageSize := p
        blob := blob
        timestamp := now }, true)

/-- The observable steps of one `handleSubmit` run, in order: the cache
lookup, the `fetch('/api/pdf', ...)` network call, the cache write, and
handing the PDF to `handleDownload` (the return of the result to the user). -/
inductive Ev where
  | storeRead
  | fetchCall
  | storeWrite
  | download
deriving DecidableEq, Repr

/-- What one `handleSubmit` run produced for the user: a downloaded PDF
(with the cache-status flag, `true` for a hit), an error message shown via
`setError`, or nothing (the empty-url guard returned early). -/
inductive Outcome where
  | downloaded (blob : Blob) (hit : Bool)
  | failed (msg : String)
  | noop
deriving DecidableEq, Repr

/-- Result of one `handleSubmit` run: the store afterwards, the user-visible
outcome, and the ordered event trace. -/
structure SubmitResult where
  store : Store
  outcome : Outcome
  events : List Ev
deriving DecidableEq, Repr

/-- `errorData.error || 'Failed to generate PDF'` (JS: an absent or empty
`error` field is falsy). -/
def clientErrorMsg (resp : ApiResponse) : String :=
  match resp.error with
  | some s => if s = "" then "Failed to generate PDF" else s
  | none => "Failed to generate PDF"

/-- `handleSubmit` (page.tsx): return early on empty url; look the key up in
the cache; on a hit download the cached blob; on a miss `fetch('/api/pdf')`,
throw the response's error message when `!response.ok`, else save the blob to
the cache (best-effort) and download it. `resp` is the response the fetch
would receive. -/
def handleSubmit (readFails writeFails : Bool) (resp : ApiResponse) (now : Nat)
    (store : Store) (url : String) (p : PageSize) : SubmitResult :=
  if url = "" then { store := store, outcome := .noop, events := [] }
  else
    match getPdfFromCache readFails store url p with
    | some blob =>
      { store := store
        outcome := .downloaded blob true
        events := [.storeRead, .download] }
    | none =>
      if resp.ok then
        let saved := savePdfToCache writeFails store url p resp.body now
        { store := saved.1
          outcome := .downloaded resp.body false
          events := [.storeRead, .fetchCall]
              ++ (if saved.2 then [.storeWrite] else []) ++ [.download] }
      else
        { store := store
          outcome := .failed (clientErrorMsg resp)
          events := [.storeRead, .fetchCall] }

/-- The whole conversion flow: the client submit whose fetch is answered by
the server route. Returns the client result and the render call the server
made, if any. -/
def convert (env : ServerEnv) (readFails writeFails : Bool) (now : Nat)
    (store : Store) (url : String) (p : PageSize) : SubmitResult × Option RenderCall :=
  let posted := POST env { url := some url, pageSize := some (pageSizeStr p) }
  (handleSubmit readFails writeFails posted.1 now store url p, posted.2)

/-! ## Helper lemmas -/

theorem String.append_cancel_right' (a b s : String) (h : a ++ s = b ++ s) : a = b := by
  cases a; cases b; cases s
  simp only [String.ext_iff, String.data_append] at *
  exact List.append_cancel_right h

theorem String.append_cancel_left' (u s1 s2 : String) (h : u ++ s1 = u ++ s2) : s1 = s2 := by
  cases u; cases s1; cases s2
  simp only [String.ext_iff, String.data_append] at *
  exact List.append_cancel_left h

theorem pageSizeStr_injective (p1 p2 : PageSize) (h : pageSizeStr p1 = pageSizeStr p2) :
    p1 = p2 := by
  cases p1 <;> cases p2 <;> simp_all [pageSizeStr]

theorem find_map_put (e : CacheEntry) (store : Store)
    (h : store.any (fun x => x.cacheKey == e.cacheKey) = true) :
    (store.map (fun x => if x.cacheKey == e.cacheKey then e else x)).find?
      (fun x => x.cacheKey == e.cacheKey) = some e := by
  induction store with
  | nil => simp at h
  | cons x rest ih =>
    rw [List.map_cons]
    by_cases hx : x.cacheKey = e.cacheKey
    · have hhead : (if x.cacheKey == e.cacheKey then e else x) = e := by simp [hx]
      rw [hhead, List.find?_cons_of_pos _ (by simp)]
    · have hpx : (x.cacheKey == e.cacheKey) = false := by simp [hx]
      have hhead : (if x.cacheKey == e.cacheKey then e else x) = x := by simp [hpx]
      rw [hhead, List.find?_cons_of_neg _ (by simp [hx])]
      apply ih
      rw [List.any_cons, hpx] at h
      simpa using h

theorem find_append_new (e : CacheEntry) (store : Store)
    (h : store.any (fun x => x.cacheKey == e.cacheKey) = false) :
    (store ++ [e]).find? (fun x => x.cacheKey == e.cacheKey) = some e := by
  induction store with
  | nil => simp
  | cons x rest ih =>
    simp only [List.any_cons, Bool.or_eq_false_iff] at h
    simp [List.find?, h.1, ih h.2]

theorem getEntry_putEntry (store : Store) (e : CacheEntry) :
    getEntry (putEntry store e) e.cacheKey = some e := by
  unfold getEntry putEntry
  by_cases h : store.any (fun x => x.cacheKey == e.cacheKey) = true
  · rw [if_pos h]
    exact find_map_put e store h
  · have h' : store.any (fun x => x.cacheKey == e.cacheKey) = false :=
      Bool.eq_false_iff.mpr h
    rw [if_neg h]
    exact find_append_new e store h'

theorem keyCount_putEntry (store : Store) (e : CacheEntry)
    (h : ∀ k, keyCount store k ≤ 1) (k : String) :
    keyCount (putEntry store e) k ≤ 1 := by
  unfold keyCount putEntry
  by_cases hany : store.any (fun x => x.cacheKey == e.cacheKey) = true
  · rw [if_pos hany, List.countP_map]
    by_cases hk : e.cacheKey = k
    · subst hk
      have hcongr : ∀ x ∈ store,
          (((fun y : CacheEntry => y.cacheKey == e.cacheKey) ∘
            (fun y : CacheEntry => if y.cacheKey == e.cacheKey then e else y)) x = true) ↔
          ((fun y : CacheEntry => y.cacheKey == e.cacheKey) x = true) := by
        intro x _
        by_cases hxe : x.cacheKey = e.cacheKey <;> simp [Function.comp, hxe]
      rw [List.countP_congr hcongr]
      exact h e.cacheKey
    · refine le_trans (List.countP_mono_left ?_) (h k)
      intro x _ hpx
      simp only [Function.comp] at hpx
      by_cases hxe : x.cacheKey = e.cacheKey
      · exfalso
        rw [if_pos (by simp [hxe])] at hpx
        exact hk (by simpa using hpx)
      · rw [if_neg (by simp [hxe])] at hpx
        exact hpx
  · have hany' : store.any (fun x => x.cacheKey == e.cacheKey) = false :=
      Bool.eq_false_iff.mpr hany
    rw [if_neg hany, List.countP_append]
    by_cases hk : e.cacheKey = k
    · subst hk
      have h0 : store.countP (fun x => x.cacheKey == e.cacheKey) = 0 := by
        rw [List.countP_eq_zero]
        intro a ha
        have := List.any_eq_false.mp hany' a ha
        simpa using this
      simp [h0, List.countP_cons]
    · have h1 : List.countP (fun x : CacheEntry => x.cacheKey == k) [e] = 0 := by
        simp [hk]
      rw [h1]
      simpa using h k

theorem collapseDashes_sublist (l : List Char) :
    List.Sublist (collapseDashes l) l := by
  induction l with
  | nil => simp [collapseDashes]
  | cons c rest ih =>
    simp only [collapseDashes]
    split
    · exact ih.trans (List.sublist_cons_self c rest)
    · exact ih.cons₂ c

theorem dropLeadingCh_sublist (x : Char) (l : List Char) :
    List.Sublist (dropLeadingCh x l) l := by
  cases l with
  | nil => exact List.Sublist.refl _
  | cons c rest =>
    simp only [dropLeadingCh]
    split
    · exact List.sublist_cons_self c rest
    · exact List.Sublist.refl _

theorem dropTrailingCh_sublist (x : Char) (l : List Char) :
    List.Sublist (dropTrailingCh x l) l := by
  unfold dropTrailingCh
  split
  · next c rest heq =>
    split
    · have hl : l = rest.reverse ++ [c] := by
        rw [← List.reverse_reverse l, heq, List.reverse_cons]
      rw [hl]
      exact List.sublist_append_left _ _
    · exact List.Sublist.refl _
  · exact List.Sublist.refl _

theorem sanitizeFilename_all_safe (l : List Char) :
    (sanitizeFilename l).all isFilenameSafeChar = true := by
  have hmap : (l.map (fun c => if isFilenameSafeChar c then c else '-')).all
      isFilenameSafeChar = true := by
    simp only [List.all_eq_true]
    intro x hx
    obtain ⟨c, _, rfl⟩ := List.mem_map.mp hx
    by_cases h : isFilenameSafeChar c = true
    · simp [h]
    · simp [h]
      decide
  have hsub : List.Sublist (sanitizeFilename l)
      (l.map fun c => if isFilenameSafeChar c then c else '-') := by
    unfold sanitizeFilename
    exact (List.take_sublist _ _).trans ((dropTrailingCh_sublist _ _).trans
      ((dropLeadingCh_sublist _ _).trans (collapseDashes_sublist _)))
  simp only [List.all_eq_true] at *
  exact fun x hx => hmap x (hsub.subset hx)

theorem sanitizeFilename_length_le (l : List Char) :
    (sanitizeFilename l).length ≤ 100 := by
  unfold sanitizeFilename
  rw [List.length_take]
  exact Nat.min_le_left _ _

/-! ## Claim theorems -/

/-- C3: the cache-key function is deterministic — repeated applications to
identical inputs give the identical key — and injective: for a fixed page
size, distinct urls give distinct keys, and for a fixed url, distinct page
sizes give distinct keys. -/
theorem cacheKey_deterministic_and_injective :
    (∀ (u : String) (p : PageSize), generateCacheKey u p = generateCacheKey u p) ∧
    (∀ (u1 u2 : String) (p : PageSize), u1 ≠ u2 →
        generateCacheKey u1 p ≠ generateCacheKey u2 p) ∧
    (∀ (u : String) (p1 p2 : PageSize), p1 ≠ p2 →
        generateCacheKey u p1 ≠ generateCacheKey u p2) := by
  refine ⟨fun u p => rfl, ?_, ?_⟩
  · intro u1 u2 p hne heq
    apply hne
    have h1 : u1 ++ "|" = u2 ++ "|" :=
      String.append_cancel_right' _ _ (pageSizeStr p) heq
    exact String.append_cancel_right' _ _ "|" h1
  · intro u p1 p2 hne heq
    exact hne (pageSizeStr_injective p1 p2 (String.append_cancel_left' (u ++ "|") _ _ heq))

/-- Witness for C3: the two sample urls of the spec, on page size a4, derive
different keys. -/
theorem cacheKey_injective_witness :
    generateCacheKey "https://a.com" PageSize.a4 ≠ generateCacheKey "https://b.com" PageSize.a4 :=
  cacheKey_deterministic_and_injective.2.1 "https://a.com" "https://b.com" PageSize.a4
    (by decide)

/-- C5: `put` followed by `get` of the entry's key returns exactly the stored
entry (so its payload and page size in particular), and `put` preserves the
at-most-one-entry-per-key invariant, because it is an upsert that overwrites
the previous entry under the same key. -/
theorem put_get_roundtrip_and_single_entry_per_key :
    (∀ (store : Store) (e : CacheEntry),
        getEntry (putEntry store e) e.cacheKey = some e) ∧
    (∀ (store : Store) (e : CacheEntry),
        (∀ k, keyCount store k ≤ 1) → ∀ k, keyCount (putEntry store e) k ≤ 1) :=
  ⟨getEntry_putEntry, keyCount_putEntry⟩

/-- C8 counterexample: the sanitizing regex replaces the dots of the hostname
by hyphens, so `generateFilenameFromUrl "https://www.Example.com/foo/bar/"`
yields `"example-com-foo-bar"`, not `"example.com-foo-bar"` as claimed (a
result containing a dot would also contradict the claim's own
"ASCII alphanumerics and hyphens only"). -/
theorem filename_example_has_no_dot :
    generateFilenameFromUrl "https://www.Example.com/foo/bar/" ≠ "example.com-foo-bar" ∧
    generateFilenameFromUrl "https://www.Example.com/foo/bar/" = "example-com-foo-bar" := by
  constructor
  · decide
  · decide

/-- C8 (amended): the filename derivation always yields at most 100
characters, all of them ASCII alphanumerics or hyphens;
`generateFilenameFromUrl "https://www.Example.com/foo/bar/"` yields
`"example-com-foo-bar"` (the hostname's dot is itself sanitized to a hyphen),
and any input on which URL construction fails, such as `"not a url"`, yields
the literal `"page"`. -/
theorem filename_derivation_safe_and_examples :
    (∀ url : String,
        (generateFilenameFromUrl url).data.all isFilenameSafeChar = true ∧
        (generateFilenameFromUrl url).data.length ≤ 100) ∧
    generateFilenameFromUrl "https://www.Example.com/foo/bar/" = "example-com-foo-bar" ∧
    generateFilenameFromUrl "not a url" = "page" := by
  refine ⟨fun url => ?_, by decide, by decide⟩
  unfold generateFilenameFromUrl
  cases parseURL url with
  | none => exact ⟨by decide, by decide⟩
  | some parts =>
    dsimp only
    by_cases h : sanitizeFilename (rawFilename parts) = []
    · rw [if_pos h]
      exact ⟨by decide, by decide⟩
    · rw [if_neg h]
      exact ⟨sanitizeFilename_all_safe _, sanitizeFilename_length_le _⟩

/-- C1: when the store already holds an entry under the key derived from
`(url, pageSize)`, the submit flow returns exactly the stored PDF bytes
(flagged as a cache hit), never performs the fetch to the render collaborator,
and leaves the store unchanged. -/
theorem hit_returns_cached_bytes_without_network
    (writeFails : Bool) (resp : ApiResponse) (now : Nat) (store : Store)
    (url : String) (p : PageSize) (e : CacheEntry)
    (hurl : url ≠ "") (hhit : getEntry store (generateCacheKey url p) = some e) :
    (handleSubmit false writeFails resp now store url p).outcome =
      .downloaded e.blob true ∧
    Ev.fetchCall ∉ (handleSubmit false writeFails resp now store url p).events ∧
    (handleSubmit false writeFails resp now store url p).store = store := by
  simp [handleSubmit, getPdfFromCache, hurl, hhit]

/-- Witness for C1: a pre-populated one-entry store makes the flow return the
stored bytes without fetching. -/
theorem hit_returns_cached_bytes_witness :
    (handleSubmit false false { status := 200, error := none, body := [9] } 0
      [{ cacheKey := generateCacheKey "https://a.com" PageSize.a4
         url := "https://a.com", pageSize := PageSize.a4, blob := [7], timestamp := 0 }]
      "https://a.com" PageSize.a4).outcome = .downloaded [7] true ∧
    Ev.fetchCall ∉ (handleSubmit false false { status := 200, error := none, body := [9] } 0
      [{ cacheKey := generateCacheKey "https://a.com" PageSize.a4
         url := "https://a.com", pageSize := PageSize.a4, blob := [7], timestamp := 0 }]
      "https://a.com" PageSize.a4).events ∧
    (handleSubmit false false { status := 200, error := none, body := [9] } 0
      [{ cacheKey := generateCacheKey "https://a.com" PageSize.a4
         url := "https://a.com", pageSize := PageSize.a4, blob := [7], timestamp := 0 }]
      "https://a.com" PageSize.a4).store =
      [{ cacheKey := generateCacheKey "https://a.com" PageSize.a4
         url := "https://a.com", pageSize := PageSize.a4, blob := [7], timestamp := 0 }] :=
  hit_returns_cached_bytes_without_network false
    { status := 200, error := none, body := [9] } 0
    [{ cacheKey := generateCacheKey "https://a.com" PageSize.a4
       url := "https://a.com", pageSize := PageSize.a4, blob := [7], timestamp := 0 }]
    "https://a.com" PageSize.a4
    { cacheKey := generateCacheKey "https://a.com" PageSize.a4
      url := "https://a.com", pageSize := PageSize.a4, blob := [7], timestamp := 0 }
    (by decide) (by decide)

/-- C4: starting from the empty store, a successful conversion (ok response,
no store fault) leaves the store holding an entry under the derived key whose
payload is the fetched PDF, and within the run the cache write strictly
precedes the delivery of the result. -/
theorem miss_populates_cache_write_before_return
    (resp : ApiResponse) (now : Nat) (url : String) (p : PageSize)
    (hurl : url ≠ "") (hok : resp.ok = true) :
    getEntry (handleSubmit false false resp now [] url p).store
        (generateCacheKey url p) =
      some { cacheKey := generateCacheKey url p, url := url, pageSize := p
             blob := resp.body, timestamp := now } ∧
    (handleSubmit false false resp now [] url p).events =
      [.storeRead, .fetchCall, .storeWrite, .download] ∧
    (handleSubmit false false resp now [] url p).events.indexOf Ev.storeWrite <
      (handleSubmit false false resp now [] url p).events.indexOf Ev.download := by
  have hev : (handleSubmit false false resp now [] url p).events =
      [.storeRead, .fetchCall, .storeWrite, .download] := by
    simp [handleSubmit, getPdfFromCache, getEntry, hurl, hok, savePdfToCache]
  refine ⟨?_, hev, ?_⟩
  · simp [handleSubmit, getPdfFromCache, getEntry, hurl, hok, savePdfToCache, putEntry]
  · rw [hev]
    decide

/-- Witness for C4: a concrete ok response into the empty store. -/
theorem miss_populates_cache_witness :
    getEntry (handleSubmit false false { status := 200, error := none, body := [3] } 5
        [] "https://a.com" PageSize.letter).store
        (generateCacheKey "https://a.com" PageSize.letter) =
      some { cacheKey := generateCacheKey "https://a.com" PageSize.letter
             url := "https://a.com", pageSize := PageSize.letter, blob := [3]
             timestamp := 5 } :=
  (miss_populates_cache_write_before_return
    { status := 200, error := none, body := [3] } 5 "https://a.com" PageSize.letter
    (by decide) (by decide)).1

/-- C6: on a cache miss with a successful render, a failing cache write is
swallowed: the flow still delivers the freshly fetched PDF (no error outcome),
merely leaving the store unchanged. -/
theorem write_failure_still_delivers_pdf
    (resp : ApiResponse) (now : Nat) (store : Store) (url : String) (p : PageSize)
    (hurl : url ≠ "") (hmiss : getEntry store (generateCacheKey url p) = none)
    (hok : resp.ok = true) :
    (handleSubmit false true resp now store url p).outcome =
      .downloaded resp.body false ∧
    (handleSubmit false true resp now store url p).store = store ∧
    Ev.download ∈ (handleSubmit false true resp now store url p).events := by
  simp [handleSubmit, getPdfFromCache, hmiss, hurl, hok, savePdfToCache]

/-- Witness for C6: a concrete ok response whose cache write fails still
downloads. -/
theorem write_failure_still_delivers_witness :
    (handleSubmit false true { status := 200, error := none, body := [4] } 0 []
      "https://a.com" PageSize.a4).outcome = .downloaded [4] false :=
  (write_failure_still_delivers_pdf { status := 200, error := none, body := [4] } 0 []
    "https://a.com" PageSize.a4 (by decide) (by decide) (by decide)).1

/-- C7: when the store read fails, the flow behaves exactly as a cache miss —
it performs the fetch to the render collaborator and produces the same outcome
and the same event trace as a run against an empty store — instead of
surfacing the store error. -/
theorem read_failure_degrades_to_miss
    (writeFails : Bool) (resp : ApiResponse) (now : Nat) (store : Store)
    (url : String) (p : PageSize) (hurl : url ≠ "") :
    Ev.fetchCall ∈ (handleSubmit true writeFails resp now store url p).events ∧
    (handleSubmit true writeFails resp now store url p).outcome =
      (handleSubmit false writeFails resp now [] url p).outcome ∧
    (handleSubmit true writeFails resp now store url p).events =
      (handleSubmit false writeFails resp now [] url p).events := by
  simp only [handleSubmit, getPdfFromCache, getEntry, List.find?_nil, if_neg hurl]
  by_cases hok : resp.ok = true
  · cases writeFails <;> simp [hok, savePdfToCache]
  · simp [Bool.eq_false_iff.mpr hok]

/-- Witness for C7: with a failing store read, a concrete run fetches. -/
theorem read_failure_degrades_witness :
    Ev.fetchCall ∈ (handleSubmit true false { status := 200, error := none, body := [2] } 0
      [] "https://a.com" PageSize.a4).events :=
  (read_failure_degrades_to_miss false { status := 200, error := none, body := [2] } 0 []
    "https://a.com" PageSize.a4 (by decide)).1

/-- C9: on a cache miss, any non-ok response makes the flow surface the
response's error message (the provider's `error` field when present and
non-empty, else the fallback text), and the fetch happens exactly once — no
retry. -/
theorem render_failure_surfaced_without_retry
    (readFails writeFails : Bool) (resp : ApiResponse) (now : Nat) (store : Store)
    (url : String) (p : PageSize) (hurl : url ≠ "")
    (hmiss : getPdfFromCache readFails store url p = none)
    (hfail : resp.ok = false) :
    (handleSubmit readFails writeFails resp now store url p).outcome =
      .failed (clientErrorMsg resp) ∧
    (∀ m, resp.error = some m → m ≠ "" → clientErrorMsg resp = m) ∧
    (handleSubmit readFails writeFails resp now store url p).events.count
      Ev.fetchCall = 1 := by
  refine ⟨?_, ?_, ?_⟩
  · simp [handleSubmit, hurl, hmiss, hfail]
  · intro m hm hne
    simp [clientErrorMsg, hm, hne]
  · simp [handleSubmit, hurl, hmiss, hfail]

/-- Witness for C9: a concrete 500 response with a provider message is
surfaced verbatim after one fetch. -/
theorem render_failure_surfaced_witness :
    (handleSubmit false false { status := 500, error := some "boom", body := [] } 0 []
      "https://a.com" PageSize.a4).outcome = .failed (clientErrorMsg
        { status := 500, error := some "boom", body := [] }) :=
  (render_failure_surfaced_without_retry false false
    { status := 500, error := some "boom", body := [] } 0 [] "https://a.com" PageSize.a4
    (by decide) (by decide) (by decide)).1

/-- C2 counterexample: converting the syntactically invalid url `"not-a-url"`
with page size a4 does perform a store read and does issue the network request
to `/api/pdf` — the client does no upfront validation, so the failure arrives
only after both interactions. -/
theorem invalid_url_still_touches_store_and_network :
    Ev.storeRead ∈ (convert
      { browserlessToken := some "tok", renderOk := true, renderedPdf := [1] }
      false false 0 [] "not-a-url" PageSize.a4).1.events ∧
    Ev.fetchCall ∈ (convert
      { browserlessToken := some "tok", renderOk := true, renderedPdf := [1] }
      false false 0 [] "not-a-url" PageSize.a4).1.events := by
  constructor
  · decide
  · decide

/-- C2 (amended): malformed input is rejected with a 400 invalid-input error
by the server-side schema validation, before the external render collaborator
is ever invoked; the client performs no upfront validation, so on a cache miss
the store read and the fetch to `/api/pdf` both happen before that failure is
surfaced. -/
theorem invalid_input_rejected_before_render :
    (∀ (env : ServerEnv) (req : ServerReq), parseReq req = none →
        (POST env req).1.status = 400 ∧ (POST env req).2 = none ∧
        (POST env req).1.error.isSome = true) ∧
    (∀ (env : ServerEnv) (readFails writeFails : Bool) (now : Nat) (store : Store)
        (url : String) (p : PageSize), url ≠ "" → parseURL url = none →
        getPdfFromCache readFails store url p = none →
        (convert env readFails writeFails now store url p).2 = none ∧
        (∃ m, (convert env readFails writeFails now store url p).1.outcome = .failed m) ∧
        (convert env readFails writeFails now store url p).1.events =
          [.storeRead, .fetchCall]) := by
  constructor
  · intro env req hbad
    simp [POST, hbad]
  · intro env readFails writeFails now store url p hurl hbad hmiss
    have hreq : parseReq { url := some url, pageSize := some (pageSizeStr p) } = none := by
      simp [parseReq, hbad]
    refine ⟨?_, ?_, ?_⟩
    · simp [convert, POST, hreq]
    · exact ⟨clientErrorMsg (POST env
        { url := some url, pageSize := some (pageSizeStr p) }).1, by
          simp [convert, POST, hreq, handleSubmit, hurl, hmiss, ApiResponse.ok]⟩
    · simp [convert, POST, hreq, handleSubmit, hurl, hmiss, ApiResponse.ok]

/-- Witness for C2 (amended): the concrete invalid url `"not-a-url"` is
rejected without a render call. -/
theorem invalid_input_rejected_witness :
    (convert { browserlessToken := some "tok", renderOk := true, renderedPdf := [1] }
      false false 0 [] "not-a-url" PageSize.a4).2 = none :=
  (invalid_input_rejected_before_render.2
    { browserlessToken := some "tok", renderOk := true, renderedPdf := [1] }
    false false 0 [] "not-a-url" PageSize.a4
    (by decide) (by decide) (by decide)).1

/-- C10: for page size `custom` the route uses exactly the a4 page dimensions
(the `pageSizes` table maps both to 8.27 × 11.69 inches, hence the same
794 × 1122 pixel viewport — the strict request schema admits no caller-supplied
dimensions), and passes the uppercased page size `"CUSTOM"` as the PDF paper
format. -/
theorem custom_renders_with_a4_dimensions_and_CUSTOM_format
    (env : ServerEnv) (url : String)
    (htok : env.browserlessToken.isSome = true) (hrok : env.renderOk = true)
    (hurl : (parseURL url).isSome = true) :
    pageSizes PageSize.custom = pageSizes PageSize.a4 ∧
    viewportPx PageSize.custom = (794, 1122) ∧
    (POST env { url := some url, pageSize := some "custom" }).2 =
      some { viewportWidth := 794, viewportHeight := 1122, format := "CUSTOM" } := by
  obtain ⟨tok, htok'⟩ := Option.isSome_iff_exists.mp htok
  refine ⟨rfl, by decide, ?_⟩
  simp [POST, parseReq, parsePageSize, hurl, htok', hrok]
  constructor
  · decide
  · decide

/-- Witness for C10: a concrete environment and url. -/
theorem custom_renders_witness :
    (POST { browserlessToken := some "tok", renderOk := true, renderedPdf := [1] }
      { url := some "https://a.com", pageSize := some "custom" }).2 =
      some { viewportWidth := 794, viewportHeight := 1122, format := "CUSTOM" } :=
  (custom_renders_with_a4_dimensions_and_CUSTOM_format
    { browserlessToken := some "tok", renderOk := true, renderedPdf := [1] }
    "https://a.com" (by decide) (by decide) (by decide)).2.2

/-- Witness for C5: a concrete put into the empty store keeps at most one
entry under the written key. -/
theorem put_single_entry_witness :
    keyCount
      (putEntry []
        { cacheKey := generateCacheKey "https://a.com" PageSize.a4
          url := "https://a.com", pageSize := PageSize.a4, blob := [1], timestamp := 0 })
      (generateCacheKey "https://a.com" PageSize.a4) ≤ 1 :=
  put_get_roundtrip_and_single_entry_per_key.2 []
    { cacheKey := generateCacheKey "https://a.com" PageSize.a4
      url := "https://a.com", pageSize := PageSize.a4, blob := [1], timestamp := 0 }
    (fun k => by simp [keyCount]) (generateCacheKey "https://a.com" PageSize.a4)

end UrlToPdf
